import Mathlib

/-!
Verification of the Calorie Tracker Record Store and Chart Builder.

A shallow embedding of `src/data_manager.py` (the Record Store) and the
data-shaping part of `src/visualizer.py` (the Chart Builder) of the
Agentic-Cal-Calculator repository, together with theorems settling the
spec claims about them.

Modelling conventions:
* A pandas `DataFrame` of daily records is a `List Row`; each cell that can
  be `NaN`/missing is an `Option ℚ` (`none` = NaN/undefined).
* The `Date` column after `load_data` is a `String` (the code does
  `astype(str)`).
* `pd.to_datetime` on a date string is `parseDate` (ISO `Y-M-D` forms,
  with or without zero padding); an unparseable string is `none`, which
  models `to_datetime` raising.
* Python numbers are `ℚ` (the repository only adds, subtracts, divides
  and compares them; no float-rounding behavior is relied on).
* File-system state and injected I/O failures live in `FS`; operations
  that can raise in Python return `Except PyErr _`, and a caught
  exception (`try`/`except` returning a default) shows up as an `.ok`
  default value.
-/

/-- Calendar dates, as produced by parsing the `Date` strings. -/
structure Date where
  year : ℕ
  month : ℕ
  day : ℕ
deriving DecidableEq, Repr

/-- Lexicographic strict order on dates (calendar order). -/
def Date.ltB (a b : Date) : Bool :=
  a.year < b.year ∨ (a.year = b.year ∧
    (a.month < b.month ∨ (a.month = b.month ∧ a.day < b.day)))

/-- Lexicographic order on dates (calendar order). -/
def Date.leB (a b : Date) : Bool :=
  a.year < b.year ∨ (a.year = b.year ∧
    (a.month < b.month ∨ (a.month = b.month ∧ a.day ≤ b.day)))

/-- Gregorian leap-year test. -/
def isLeap (y : ℕ) : Bool := (y % 4 = 0 ∧ y % 100 ≠ 0) ∨ y % 400 = 0

/-- Days in a month of the Gregorian calendar. -/
def daysInMonth (y m : ℕ) : ℕ :=
  if m = 2 then (if isLeap y then 29 else 28)
  else if m = 4 ∨ m = 6 ∨ m = 9 ∨ m = 11 then 30
  else 31

/-- Split a character list on `'-'` separators (the groups of
`"Y-M-D".split('-')`). -/
def splitDash : List Char → List (List Char)
  | [] => [[]]
  | c :: rest =>
    match splitDash rest with
    | [] => [[]]
    | g :: gs => if c = '-' then [] :: g :: gs else (c :: g) :: gs

/-- The numeric value of a decimal digit character. -/
def digitVal (c : Char) : Option ℕ :=
  if '0' ≤ c ∧ c ≤ '9' then some (c.toNat - '0'.toNat) else none

/-- A non-empty all-digit character group as a number. -/
def toNatDigits (cs : List Char) : Option ℕ :=
  if cs.isEmpty then none
  else cs.foldl (fun acc c => acc.bind fun n =>
    (digitVal c).map fun d => 10 * n + d) (some 0)

/-- `parseDate` models `pd.to_datetime` on the date strings this program
stores: `Y-M-D` with or without zero padding, month and day in calendar
range. Anything else (including the `"nan"` produced by `astype(str)` on
a missing cell) fails, modelling `to_datetime` raising an exception. -/
def parseDate (s : String) : Option Date :=
  match (splitDash s.data).map toNatDigits with
  | [some y, some m, some d] =>
    if 1 ≤ m ∧ m ≤ 12 ∧ 1 ≤ d ∧ d ≤ daysInMonth y m then some ⟨y, m, d⟩
    else none
  | _ => none

/-- One row of the spreadsheet as seen by the application after
`load_data`: the `Date` column is a string, every numeric column is an
optional rational (`none` = NaN/empty cell). Column order follows
`DataManager.columns`. -/
structure Row where
  date : String
  calories : Option ℚ
  protein : Option ℚ
  carbs : Option ℚ
  fat : Option ℚ
  weight : Option ℚ
  calorie_goal : Option ℚ
deriving DecidableEq, Repr

abbrev Table := List Row

/-- The update-mapping keys understood by `update_day_data`; any other
dictionary key falls through all the `elif` branches and is ignored. -/
inductive FieldKey where
  | calories | protein | carbs | fat | weight | goal | unknown
deriving DecidableEq, Repr

/-- `updates.items()`: a Python dict iterated as key/value pairs. -/
abbrev Updates := List (FieldKey × ℚ)

/-- The fresh row built at `data_manager.py:114`:
`{col: 0 if col != 'Date' else date_str for col in self.columns}` — every
non-`Date` column (including `Weight` and `Calorie_Goal`) is initialized
to `0`. -/
def newRow (date_str : String) : Row :=
  { date := date_str, calories := some 0, protein := some 0, carbs := some 0,
    fat := some 0, weight := some 0, calorie_goal := some 0 }

/-- `current = df.at[...] if not pd.isna(df.at[...]) else 0` followed by
`df.at[...] = current + value`: the additive policy of the accumulator
fields. -/
def addTo (cur : Option ℚ) (v : ℚ) : Option ℚ := some (cur.getD 0 + v)

/-- One iteration of the `for field, value in updates.items()` loop of
`update_day_data` (lines 122–149): accumulators add, `weight`/`goal`
replace, unknown keys are ignored. -/
def applyUpdate (r : Row) (u : FieldKey × ℚ) : Row :=
  match u.1 with
  | .calories => { r with calories := addTo r.calories u.2 }
  | .protein => { r with protein := addTo r.protein u.2 }
  | .carbs => { r with carbs := addTo r.carbs u.2 }
  | .fat => { r with fat := addTo r.fat u.2 }
  | .weight => { r with weight := some u.2 }
  | .goal => { r with calorie_goal := some u.2 }
  | .unknown => r

/-- Apply the whole update loop to the row at `existing_row.index[0]`,
i.e. the first row whose `Date` matches. -/
def applyAtFirst (d : String) (us : Updates) : Table → Table
  | [] => []
  | r :: rs =>
    if r.date = d then (us.foldl applyUpdate r) :: rs
    else r :: applyAtFirst d us rs

/-- The pure read-modify part of `update_day_data` (lines 109–149): if no
row matches the date, append a fresh zero-initialized row and update it;
otherwise update the first matching row in place. -/
def update_rows (df : Table) (date_str : String) (updates : Updates) : Table :=
  if df.any (fun r => r.date = date_str) then
    applyAtFirst date_str updates df
  else
    df ++ [updates.foldl applyUpdate (newRow date_str)]

/-- The pure part of `delete_day_data` (line 204):
`df = df[df['Date'] != date_str]`. -/
def delete_rows (df : Table) (date_str : String) : Table :=
  df.filter (fun r => r.date ≠ date_str)

/-- The pure part of `get_day_data` (lines 88–98): first row whose `Date`
matches, or absent. -/
def find_day (df : Table) (date_str : String) : Option Row :=
  df.find? (fun r => r.date = date_str)

/-! ## The backing file and I/O model

`RawFile` is the on-disk spreadsheet as `pd.read_excel` would deliver it:
a `Date` cell may be a string, a number, or empty (NaN), and any of the
seven columns may be missing from the header. `FS` carries the file plus
injectable failures for the read, write and create primitives, so that the
`try`/`except` structure of each `DataManager` method is observable. -/

/-- A spreadsheet cell in the `Date` column, before `astype(str)`. -/
inductive Cell where
  | str (s : String)
  | num (q : ℚ)
  | na
deriving DecidableEq, Repr

/-- `astype(str)` on one `Date` cell. The rendering of a numeric cell and
of NaN stands in for Python's `str()` (`"nan"` for NaN); the exact text of
the numeric case is never relied on by any theorem. -/
def cellToStr : Cell → String
  | .str s => s
  | .num q => toString q
  | .na => "nan"

/-- One raw spreadsheet row; numeric cells read directly as optional
numbers (empty cell = `none`). -/
structure RawRow where
  date : Cell
  calories : Option ℚ
  protein : Option ℚ
  carbs : Option ℚ
  fat : Option ℚ
  weight : Option ℚ
  calorie_goal : Option ℚ
deriving DecidableEq, Repr

/-- Which of the seven required columns the file's header actually has;
`load_data` (lines 45–47) fills a missing column with `None`. -/
structure ColSet where
  hasDate : Bool
  hasCalories : Bool
  hasProtein : Bool
  hasCarbs : Bool
  hasFat : Bool
  hasWeight : Bool
  hasGoal : Bool
deriving DecidableEq, Repr

/-- All seven columns present — the shape `save_data` always writes. -/
def allCols : ColSet := ⟨true, true, true, true, true, true, true⟩

/-- The backing spreadsheet file. -/
structure RawFile where
  cols : ColSet
  rows : List RawRow
deriving DecidableEq, Repr

/-- The empty file `ensure_data_file_exists` creates: header row only. -/
def emptyRaw : RawFile := ⟨allCols, []⟩

/-- Errors a Python primitive can raise. -/
inductive PyErr where
  | ioError
  | parseError
deriving DecidableEq, Repr

/-- File-system state: the backing file ("none" = file does not exist)
plus injected failures for each I/O primitive. -/
structure FS where
  file : Option RawFile
  readFails : Bool
  writeFails : Bool
  createFails : Bool
deriving DecidableEq, Repr

/-- `pd.read_excel`: fails when the injected read failure is set. -/
def readExcel (fs : FS) (raw : RawFile) : Except PyErr RawFile :=
  if fs.readFails then .error .parseError else .ok raw

/-- `df.to_excel`: fails when the injected write failure is set. -/
def writeExcel (fs : FS) (raw : RawFile) : Except PyErr FS :=
  if fs.writeFails then .error .ioError else .ok { fs with file := some raw }

/-- Lines 44–51 of `load_data`: fill each missing column with `None`,
then `astype(str)` the `Date` column. -/
def loadRow (cs : ColSet) (r : RawRow) : Row :=
  { date := if cs.hasDate then cellToStr r.date else "None",
    calories := if cs.hasCalories then r.calories else none,
    protein := if cs.hasProtein then r.protein else none,
    carbs := if cs.hasCarbs then r.carbs else none,
    fat := if cs.hasFat then r.fat else none,
    weight := if cs.hasWeight then r.weight else none,
    calorie_goal := if cs.hasGoal then r.calorie_goal else none }

/-- In-memory table obtained from a raw file. -/
def loadRaw (raw : RawFile) : Table := raw.rows.map (loadRow raw.cols)

/-- `save_data`'s serialization of one row: the `Date` is already a
string (line 68 `astype(str)` is the identity there), numeric cells pass
through, all seven columns are written. -/
def rawOfRow (r : Row) : RawRow :=
  { date := .str r.date, calories := r.calories, protein := r.protein,
    carbs := r.carbs, fat := r.fat, weight := r.weight,
    calorie_goal := r.calorie_goal }

/-- Full-table serialization, as `df.to_excel` writes it. -/
def rawOfTable (df : Table) : RawFile := ⟨allCols, df.map rawOfRow⟩

/-- `DataManager.ensure_data_file_exists` (lines 26–36): if the file is
absent, try to create it; on failure the `except` block logs **and
re-raises** (`raise` at line 36), so the error propagates. -/
def ensure_data_file_exists (fs : FS) : Except PyErr FS :=
  match fs.file with
  | some _ => .ok fs
  | none =>
    if fs.createFails then .error .ioError
    else .ok { fs with file := some emptyRaw }

/-- `DataManager.load_data` (lines 38–61): read the file if it exists;
any failure is caught and an empty table returned (`except` at line 58). -/
def load_data (fs : FS) : Except PyErr Table :=
  match fs.file with
  | some raw =>
    match readExcel fs raw with
    | .ok raw' => .ok (loadRaw raw')
    | .error _ => .ok []
  | none => .ok []

/-- The table `load_data` yields (it is total: every error is caught). -/
def loadT (fs : FS) : Table :=
  match fs.file with
  | some raw => if fs.readFails then [] else loadRaw raw
  | none => []

/-- `DataManager.save_data` (lines 63–77): write the table; a failure is
caught and reported as `false` (the file is untouched). Returns the new
file-system state and the success flag. -/
def save_data (fs : FS) (df : Table) : Except PyErr (FS × Bool) :=
  match writeExcel fs (rawOfTable df) with
  | .ok fs' => .ok (fs', true)
  | .error _ => .ok (fs, false)

/-- `save_data`'s total result. -/
def saveT (fs : FS) (df : Table) : FS × Bool :=
  if fs.writeFails then (fs, false)
  else ({ fs with file := some (rawOfTable df) }, true)

/-- `DataManager.get_day_data` (lines 83–102): load, find the first row
for the date, absent if none; any failure is caught and absent returned. -/
def get_day_data (fs : FS) (date_str : String) : Except PyErr (Option Row) :=
  match load_data fs with
  | .ok df => .ok (find_day df date_str)
  | .error _ => .ok none

/-- `DataManager.update_day_data` (lines 104–156): load, upsert the row,
save; any failure is caught and `false` returned. -/
def update_day_data (fs : FS) (date_str : String) (updates : Updates) :
    Except PyErr (FS × Bool) :=
  match load_data fs with
  | .ok df => save_data fs (update_rows df date_str updates)
  | .error _ => .ok (fs, false)

/-- `DataManager.delete_day_data` (lines 198–210): load, drop the rows
for the date, save; any failure is caught and `false` returned. -/
def delete_day_data (fs : FS) (date_str : String) : Except PyErr (FS × Bool) :=
  match load_data fs with
  | .ok df => save_data fs (delete_rows df date_str)
  | .error _ => .ok (fs, false)

/-! ## Range query and summary statistics -/

/-- The in-range test of `get_date_range_data` (line 172): the parsed
date falls in `[start, end]` inclusive (calendar comparison). -/
def rowInRange (sd ed : Date) (r : Row) : Bool :=
  match parseDate r.date with
  | some d => sd.leB d ∧ d.leB ed
  | none => false

/-- Lexicographic string comparison on code points, the order
`sort_values` uses on a string column (stated on the underlying character
lists, which carry the same lexicographic order as `String`'s). -/
def strLe (a b : String) : Bool := decide (a.data ≤ b.data)

/-- The pure part of `get_date_range_data` (lines 158–181): parse every
`Date` (line 167 `pd.to_datetime` raises if any is unparseable, caught at
line 179 returning an empty frame), parse both endpoints, filter by
calendar comparison, then `sort_values('Date')` — which sorts the
**string** column, the parsed `Date_dt` column having been dropped. -/
def get_range_rows (df : Table) (start_date end_date : String) : Table :=
  if df.isEmpty then []
  else if df.all (fun r => (parseDate r.date).isSome) then
    match parseDate start_date, parseDate end_date with
    | some sd, some ed =>
      (df.filter (rowInRange sd ed)).insertionSort
        (fun a b => strLe a.date b.date = true)
    | _, _ => []
  else []

/-- `DataManager.get_date_range_data` as a store operation. -/
def get_date_range_data (fs : FS) (start_date end_date : String) :
    Except PyErr Table :=
  match load_data fs with
  | .ok df => .ok (get_range_rows df start_date end_date)
  | .error _ => .ok []

/-- The result record of `get_summary_stats` (lines 221–230). -/
structure Stats where
  avg_calories : ℚ
  avg_protein : ℚ
  avg_carbs : ℚ
  avg_fat : ℚ
  avg_weight : ℚ
  weight_change : Option ℚ
  goal_achievement_rate : ℚ
  days_with_data : ℕ
deriving DecidableEq, Repr

/-- `col.mean() if not col.isna().all() else 0`: the pandas mean skips
NaN (sum of defined values over their count); the guard maps the all-NaN
case to 0. -/
def meanOrZero (xs : List (Option ℚ)) : ℚ :=
  let ds := xs.filterMap id
  if ds.isEmpty then 0 else ds.sum / ds.length

/-- `df['Calories'] > 0` on one row (NaN compares false). -/
def posCal (r : Row) : Bool :=
  match r.calories with
  | some c => 0 < c
  | none => false

/-- Lines 221–243 of `get_summary_stats`, applied to the window's rows. -/
def mkStats (df : Table) : Stats :=
  let weight_data := df.filter (fun r => r.weight.isSome)
  let goal_data := df.filter (fun r => r.calories.isSome ∧ r.calorie_goal.isSome)
  { avg_calories := meanOrZero (df.map (·.calories)),
    avg_protein := meanOrZero (df.map (·.protein)),
    avg_carbs := meanOrZero (df.map (·.carbs)),
    avg_fat := meanOrZero (df.map (·.fat)),
    avg_weight := meanOrZero (df.map (·.weight)),
    weight_change :=
      if 2 ≤ weight_data.length then
        match weight_data.head?, weight_data.getLast? with
        | some f, some l => some (l.weight.getD 0 - f.weight.getD 0)
        | _, _ => none
      else none,
    goal_achievement_rate :=
      if goal_data.isEmpty then 0
      else ((goal_data.filter
          (fun r => r.calorie_goal.getD 0 ≤ r.calories.getD 0)).length : ℚ)
        / (goal_data.length : ℚ) * 100,
    days_with_data := (df.filter posCal).length }

/-- The pure part of `get_summary_stats` (lines 212–249). `get_recent_data`
computes the window endpoints as `today - (days-1)` and `today`, formatted
`%Y-%m-%d` (zero-padded ISO); the two endpoint strings are taken here as
parameters. Absent (`None`) exactly when the windowed frame is empty. -/
def summary_stats (df : Table) (start_date end_date : String) : Option Stats :=
  let w := get_range_rows df start_date end_date
  if w.isEmpty then none else some (mkStats w)

/-- `DataManager.get_summary_stats` as a store operation: any failure is
caught (line 247) and absent returned. -/
def get_summary_stats (fs : FS) (start_date end_date : String) :
    Except PyErr (Option Stats) :=
  match load_data fs with
  | .ok df => .ok (summary_stats df start_date end_date)
  | .error _ => .ok none

/-- `DataManager.backup_data` (lines 251–269): copy the backing file to
the backup path; a failure of the copy — including the source file not
existing — is caught and absent returned. The write-failure flag doubles
as the copy-failure injection. -/
def backup_data (fs : FS) (backup_filename : String) :
    Except PyErr (Option String) :=
  match fs.file with
  | some _ => if fs.writeFails then .ok none else .ok (some backup_filename)
  | none => .ok none

/-! ## ISO calendar weeks and the weekly summary chart

`create_weekly_summary_chart` (visualizer.py lines 256–282) keys its
`groupby` on `df['Date'].dt.year` (the **calendar** year) and
`df['Date'].dt.isocalendar().week` (the **ISO** week number). The ISO
calendar itself is embedded below (proleptic Gregorian, ISO 8601 week
numbering), so that the key can be compared with the genuine ISO
year/week pair. -/

/-- Day of the year (1‑based ordinal date). -/
def ordinalDay (d : Date) : ℕ :=
  ((List.range d.month).filter (fun m => 1 ≤ m)).foldl
    (fun acc m => acc + daysInMonth d.year m) 0 + d.day

/-- Rata-die day number: days elapsed from 0000-12-31 in the proleptic
Gregorian calendar (0001-01-01 is day 1). -/
def rataDie (d : Date) : ℕ :=
  365 * (d.year - 1) + (d.year - 1) / 4 - (d.year - 1) / 100
    + (d.year - 1) / 400 + ordinalDay d

/-- ISO weekday: Monday = 1 … Sunday = 7. -/
def isoWeekday (d : Date) : ℕ := (rataDie d + 6) % 7 + 1

/-- Weekday of 31 December of a year (0 = Sunday … 6 = Saturday); used by
the 52/53-week rule. -/
def pYear (y : ℕ) : ℕ := (y + y / 4 - y / 100 + y / 400) % 7

/-- Number of ISO weeks in a year: 53 when the year starts or ends on a
Thursday, else 52. -/
def isoWeeksInYear (y : ℕ) : ℕ :=
  if pYear y = 4 ∨ pYear (y - 1) = 3 then 53 else 52

/-- ISO 8601 week number of a date (1–53). -/
def isoWeek (d : Date) : ℕ :=
  let w := (ordinalDay d + 10 - isoWeekday d) / 7
  if w = 0 then isoWeeksInYear (d.year - 1)
  else if isoWeeksInYear d.year < w then 1
  else w

/-- ISO 8601 week-based year of a date: the calendar year, shifted down
or up when the date falls in the last week of the previous ISO year or
the first week of the next. -/
def isoWeekYear (d : Date) : ℕ :=
  let w := (ordinalDay d + 10 - isoWeekday d) / 7
  if w = 0 then d.year - 1
  else if isoWeeksInYear d.year < w then d.year + 1
  else d.year

/-- The genuine ISO calendar week of a date, as a (week-year, week) pair:
two dates lie in the same ISO calendar week iff their pairs coincide. -/
def isoPair (d : Date) : ℕ × ℕ := (isoWeekYear d, isoWeek d)

/-- The `groupby(['Year', 'Week'])` key of lines 270–274: the **calendar**
year paired with the ISO week number. -/
def weeklyKey (d : Date) : ℕ × ℕ := (d.year, isoWeek d)

/-- Per-week aggregate row: `agg('mean')` of each column over the group
(`none` when the column is NaN throughout the group, as pandas mean of an
all-NaN group is NaN). -/
structure WeeklyRow where
  calories : Option ℚ
  weight : Option ℚ
  protein : Option ℚ
  carbs : Option ℚ
  fat : Option ℚ
deriving DecidableEq, Repr

/-- Pandas column mean: skip NaN; all-NaN yields NaN. -/
def meanOpt (xs : List (Option ℚ)) : Option ℚ :=
  let ds := xs.filterMap id
  if ds.isEmpty then none else some (ds.sum / ds.length)

/-- Mean aggregation of one group of (parsed-date, row) pairs. -/
def weeklyAgg (g : List (Date × Row)) : WeeklyRow :=
  { calories := meanOpt (g.map (fun p => p.2.calories)),
    weight := meanOpt (g.map (fun p => p.2.weight)),
    protein := meanOpt (g.map (fun p => p.2.protein)),
    carbs := meanOpt (g.map (fun p => p.2.carbs)),
    fat := meanOpt (g.map (fun p => p.2.fat)) }

/-- Lexicographic order on the group keys (pandas `groupby` sorts them). -/
def keyLe (a b : ℕ × ℕ) : Prop := a.1 < b.1 ∨ (a.1 = b.1 ∧ a.2 ≤ b.2)

instance : DecidableRel keyLe := fun a b => by unfold keyLe; infer_instance

/-- The data-shaping part of `create_weekly_summary_chart` (lines
261–282): `None` when the window is empty or a date fails to parse
(caught at line 316); otherwise one aggregate row per distinct
`(Year, Week)` key, keys in ascending order as `groupby` yields them. -/
def weeklySummary (df : Table) : Option (List ((ℕ × ℕ) × WeeklyRow)) :=
  if df.isEmpty then none
  else if df.all (fun r => (parseDate r.date).isSome) then
    let prs := df.filterMap (fun r => (parseDate r.date).map (fun d => (d, r)))
    let keys := ((prs.map (fun p => weeklyKey p.1)).dedup).insertionSort keyLe
    some (keys.map (fun k =>
      (k, weeklyAgg (prs.filter (fun p => weeklyKey p.1 = k)))))
  else none

/-! ## Helper lemmas about the upsert loop -/

/-- The column of the stored row that an update key targets (`unknown`
keys target nothing). -/
def colOf (f : FieldKey) (r : Row) : Option ℚ :=
  match f with
  | .calories => r.calories
  | .protein => r.protein
  | .carbs => r.carbs
  | .fat => r.fat
  | .weight => r.weight
  | .goal => r.calorie_goal
  | .unknown => none

/-- The accumulator keys (`add to current value` policy). -/
def isAccum (f : FieldKey) : Bool :=
  match f with
  | .calories | .protein | .carbs | .fat => true
  | _ => false

theorem date_applyUpdate (r : Row) (u : FieldKey × ℚ) :
    (applyUpdate r u).date = r.date := by
  obtain ⟨k, v⟩ := u; cases k <;> rfl

theorem date_foldl (us : Updates) (r : Row) :
    (us.foldl applyUpdate r).date = r.date := by
  induction us generalizing r with
  | nil => rfl
  | cons u rest ih => rw [List.foldl_cons, ih, date_applyUpdate]

theorem colOf_applyUpdate_ne (r : Row) (u : FieldKey × ℚ) (f : FieldKey)
    (h : f ≠ u.1) : colOf f (applyUpdate r u) = colOf f r := by
  obtain ⟨k, v⟩ := u
  cases k <;> cases f <;> simp_all [applyUpdate, colOf]

theorem colOf_applyUpdate_self (r : Row) (f : FieldKey) (v : ℚ)
    (hf : f ≠ .unknown) :
    colOf f (applyUpdate r (f, v)) =
      if isAccum f then some ((colOf f r).getD 0 + v) else some v := by
  cases f <;> simp_all [applyUpdate, colOf, isAccum, addTo]

theorem colOf_foldl_not_mem (us : Updates) (r : Row) (f : FieldKey)
    (h : f ∉ us.map Prod.fst) :
    colOf f (us.foldl applyUpdate r) = colOf f r := by
  induction us generalizing r with
  | nil => rfl
  | cons u rest ih =>
    simp only [List.map_cons, List.mem_cons, not_or] at h
    rw [List.foldl_cons, ih _ h.2, colOf_applyUpdate_ne _ _ _ h.1]

theorem colOf_foldl_mem (us : Updates) (r : Row) (f : FieldKey) (v : ℚ)
    (hmem : (f, v) ∈ us) (hnd : (us.map Prod.fst).Nodup) (hf : f ≠ .unknown) :
    colOf f (us.foldl applyUpdate r) =
      if isAccum f then some ((colOf f r).getD 0 + v) else some v := by
  induction us generalizing r with
  | nil => cases hmem
  | cons u rest ih =>
    rw [List.map_cons, List.nodup_cons] at hnd
    rcases List.mem_cons.mp hmem with heq | hrest
    · subst heq
      rw [List.foldl_cons, colOf_foldl_not_mem _ _ _ hnd.1,
        colOf_applyUpdate_self _ _ _ hf]
    · have hne : f ≠ u.1 := by
        intro hfe
        exact hnd.1 (hfe ▸ List.mem_map_of_mem Prod.fst hrest)
      rw [List.foldl_cons]
      have := ih (applyUpdate r u) hrest hnd.2
      rw [this, colOf_applyUpdate_ne _ _ _ hne]

theorem find_applyAtFirst (df : Table) (d : String) (us : Updates)
    (h : df.any (fun r => r.date = d) = true) :
    find_day (applyAtFirst d us df) d =
      some (us.foldl applyUpdate ((find_day df d).getD (newRow d))) := by
  induction df with
  | nil => simp at h
  | cons r rs ih =>
    by_cases hr : r.date = d
    · simp [applyAtFirst, find_day, hr, List.find?_cons, date_foldl]
    · have hrs : rs.any (fun r => r.date = d) = true := by
        simpa [List.any_cons, hr] using h
      simp only [applyAtFirst, hr, if_false]
      simpa [find_day, List.find?_cons, hr] using ih hrs

/-- The row `update_day_data` leaves for the date: the first matching row
(or the fresh zero row) with the update loop applied. -/
theorem find_day_update_rows (df : Table) (d : String) (us : Updates) :
    find_day (update_rows df d us) d =
      some (us.foldl applyUpdate ((find_day df d).getD (newRow d))) := by
  unfold update_rows
  by_cases h : df.any (fun r => r.date = d) = true
  · rw [if_pos h]; exact find_applyAtFirst df d us h
  · have hb : df.any (fun r => r.date = d) = false := by
      cases hx : df.any (fun r => r.date = d)
      · rfl
      · exact absurd hx h
    have hnone : find_day df d = none := by
      rw [find_day, List.find?_eq_none]
      intro x hx
      have := List.any_eq_false.mp hb x hx
      simpa using this
    rw [if_neg h, hnone, find_day, List.find?_append]
    have hnone' := hnone
    rw [find_day] at hnone'
    simp [hnone', List.find?_cons, date_foldl, newRow]

/-! ## Claim theorems -/

/-- The current stored value of a column for a date as the additive
policy sees it: the first matching row's cell (or the fresh zero row when
the date is absent), with a NaN cell read as 0. -/
def currentOr0 (df : Table) (d : String) (f : FieldKey) : ℚ :=
  (colOf f ((find_day df d).getD (newRow d))).getD 0

/-- C1: `update_day_data` applies each field of the updates mapping by
field-specific policy: the accumulator fields `calories`, `protein`,
`carbs`, `fat` add the supplied value to the current stored value (a
missing/undefined current value counting as 0), while `weight` and `goal`
replace it; in particular upserting `calories=500` then `calories=300`
stores `calories = current + 800`, and upserting `weight=150` then
`weight=148` stores `weight = 148` (here for arbitrary `v₁`, `v₂`). -/
theorem upsert_applies_field_policies (df : Table) (d : String) (us : Updates)
    (f : FieldKey) (v v₁ v₂ : ℚ)
    (hmem : (f, v) ∈ us) (hnd : (us.map Prod.fst).Nodup) (hf : f ≠ .unknown) :
    (∃ r, find_day (update_rows df d us) d = some r ∧
        colOf f r = if isAccum f then some (currentOr0 df d f + v) else some v) ∧
    ((find_day (update_rows (update_rows df d [(.calories, v₁)]) d
        [(.calories, v₂)]) d).map (·.calories)
      = some (some (currentOr0 df d .calories + v₁ + v₂))) ∧
    ((find_day (update_rows (update_rows df d [(.weight, v₁)]) d
        [(.weight, v₂)]) d).map (·.weight) = some (some v₂)) := by
  refine ⟨⟨us.foldl applyUpdate ((find_day df d).getD (newRow d)),
    find_day_update_rows df d us, ?_⟩, ?_, ?_⟩
  · rw [colOf_foldl_mem us _ f v hmem hnd hf]; rfl
  · simp [find_day_update_rows, applyUpdate, addTo, currentOr0, colOf, add_assoc]
  · simp [find_day_update_rows, applyUpdate]

/-- Witness for C1: empty store, upsert `calories=500` then `calories=300`
(stored 800 over the zero start), and `weight` twice (last write wins). -/
theorem upsert_applies_field_policies_witness :
    ((FieldKey.calories, (500 : ℚ)) ∈ ([(FieldKey.calories, 500)] : Updates)) ∧
    (([(FieldKey.calories, (500 : ℚ))] : Updates).map Prod.fst).Nodup ∧
    FieldKey.calories ≠ FieldKey.unknown ∧
    ((∃ r, find_day (update_rows [] "2024-01-01" [(FieldKey.calories, 500)])
          "2024-01-01" = some r ∧
        colOf FieldKey.calories r = if isAccum FieldKey.calories then
          some (currentOr0 [] "2024-01-01" FieldKey.calories + 500)
          else some 500) ∧
      ((find_day (update_rows (update_rows [] "2024-01-01"
            [(FieldKey.calories, 500)]) "2024-01-01"
          [(FieldKey.calories, 300)]) "2024-01-01").map (·.calories)
        = some (some (currentOr0 [] "2024-01-01" FieldKey.calories
            + 500 + 300))) ∧
      ((find_day (update_rows (update_rows [] "2024-01-01"
            [(FieldKey.weight, 500)]) "2024-01-01"
          [(FieldKey.weight, 300)]) "2024-01-01").map (·.weight)
        = some (some 300))) :=
  ⟨by decide, by decide, by decide,
    upsert_applies_field_policies [] "2024-01-01" [(FieldKey.calories, 500)]
      FieldKey.calories 500 500 300 (by decide) (by decide) (by decide)⟩

/-- C2 counterexample: The claim says a first upsert leaves `weight`
and `calorie_goal` absent unless supplied; in fact `update_day_data`'s
fresh row (line 114) zero-initializes them: after upserting only
`calories=100` on an empty store, the stored `weight` and `calorie_goal`
are `0`, not absent. -/
theorem first_upsert_zeroes_weight_counterexample :
    (find_day (update_rows [] "2024-01-01" [(FieldKey.calories, 100)])
        "2024-01-01").map (·.weight) = some (some 0) ∧
    (find_day (update_rows [] "2024-01-01" [(FieldKey.calories, 100)])
        "2024-01-01").map (·.calorie_goal) = some (some 0) ∧
    (find_day (update_rows [] "2024-01-01" [(FieldKey.calories, 100)])
        "2024-01-01").map (·.weight) ≠ some none := by
  refine ⟨?_, ?_, ?_⟩ <;> decide

/-- C2 amended: A first upsert for an absent date appends a row in
which **every** non-date field — `calories`, `protein`, `carbs`, `fat`,
**and also** `weight` and `calorie_goal` — is initialized to `0` (not
absent), after which the updates mapping is applied; in particular
`weight` and `calorie_goal` are stored as `0` (not "not recorded")
whenever the updates mapping does not supply them. -/
theorem first_upsert_zero_initializes_all_fields (df : Table) (d : String)
    (us : Updates) (habs : df.any (fun r => r.date = d) = false) :
    update_rows df d us = df ++ [us.foldl applyUpdate (newRow d)] ∧
    newRow d = ⟨d, some 0, some 0, some 0, some 0, some 0, some 0⟩ ∧
    (FieldKey.weight ∉ us.map Prod.fst →
      (find_day (update_rows df d us) d).map (·.weight) = some (some 0)) ∧
    (FieldKey.goal ∉ us.map Prod.fst →
      (find_day (update_rows df d us) d).map (·.calorie_goal)
        = some (some 0)) := by
  have hnotany : ¬ df.any (fun r => r.date = d) = true := by simp [habs]
  have hnone : find_day df d = none := by
    rw [find_day, List.find?_eq_none]
    intro x hx
    simpa using List.any_eq_false.mp habs x hx
  refine ⟨by rw [update_rows, if_neg hnotany], rfl, ?_, ?_⟩ <;>
    intro hnm <;>
    rw [find_day_update_rows, hnone, Option.getD_none, Option.map_some']
  · have := colOf_foldl_not_mem us (newRow d) .weight hnm
    simpa [colOf, newRow] using this
  · have := colOf_foldl_not_mem us (newRow d) .goal hnm
    simpa [colOf, newRow] using this

/-- Witness for C2 (amended): first upsert of `calories=100` on the empty
store. -/
theorem first_upsert_zero_initializes_all_fields_witness :
    (([] : Table).any (fun r => r.date = "2024-01-01") = false) ∧
    (update_rows [] "2024-01-01" [(FieldKey.calories, 100)]
      = [] ++ [([(FieldKey.calories, (100 : ℚ))]).foldl applyUpdate
          (newRow "2024-01-01")] ∧
    newRow "2024-01-01"
      = ⟨"2024-01-01", some 0, some 0, some 0, some 0, some 0, some 0⟩ ∧
    (FieldKey.weight ∉ ([(FieldKey.calories, (100 : ℚ))]).map Prod.fst →
      (find_day (update_rows [] "2024-01-01" [(FieldKey.calories, 100)])
        "2024-01-01").map (·.weight) = some (some 0)) ∧
    (FieldKey.goal ∉ ([(FieldKey.calories, (100 : ℚ))]).map Prod.fst →
      (find_day (update_rows [] "2024-01-01" [(FieldKey.calories, 100)])
        "2024-01-01").map (·.calorie_goal) = some (some 0))) :=
  ⟨by decide, first_upsert_zero_initializes_all_fields [] "2024-01-01"
    [(FieldKey.calories, 100)] (by decide)⟩

/-- The date keys of a table, in row order. -/
def datesOf (df : Table) : List String := df.map (·.date)

theorem datesOf_applyAtFirst (df : Table) (d : String) (us : Updates) :
    datesOf (applyAtFirst d us df) = datesOf df := by
  induction df with
  | nil => rfl
  | cons r rs ih =>
    by_cases hr : r.date = d
    · simp [applyAtFirst, hr, datesOf, date_foldl]
    · simpa [applyAtFirst, hr, datesOf] using ih

/-- C6: The "at most one record per date" invariant is preserved:
starting from a table with pairwise-distinct dates, both the upsert
(which appends only when no row matches the date, and otherwise rewrites
the first matching row in place) and the delete leave the dates
pairwise distinct. -/
theorem store_preserves_unique_dates (df : Table) (d : String) (us : Updates)
    (h : (datesOf df).Nodup) :
    (datesOf (update_rows df d us)).Nodup ∧
    (datesOf (delete_rows df d)).Nodup := by
  constructor
  · unfold update_rows
    by_cases hany : df.any (fun r => r.date = d) = true
    · rw [if_pos hany, datesOf_applyAtFirst]; exact h
    · rw [if_neg hany]
      have habs : d ∉ datesOf df := by
        intro hd
        rcases List.mem_map.mp hd with ⟨r, hr, hrd⟩
        exact hany (List.any_eq_true.mpr ⟨r, hr, by simp [hrd]⟩)
      rw [datesOf, List.map_append]
      refine List.Nodup.append h (by simp) ?_
      intro a ha hb
      simp only [List.map_cons, List.map_nil, List.mem_singleton,
        date_foldl, newRow] at hb
      exact habs (hb ▸ ha)
  · exact ((List.filter_sublist df).map (fun r : Row => r.date)).nodup h

/-- Witness for C6: a two-row table, one upsert on an existing date and
one delete. -/
theorem store_preserves_unique_dates_witness :
    (datesOf [⟨"2024-01-01", some 1, none, none, none, none, none⟩,
      ⟨"2024-01-02", some 2, none, none, none, none, none⟩]).Nodup ∧
    ((datesOf (update_rows
        [⟨"2024-01-01", some 1, none, none, none, none, none⟩,
         ⟨"2024-01-02", some 2, none, none, none, none, none⟩]
        "2024-01-02" [(FieldKey.calories, 50)])).Nodup ∧
     (datesOf (delete_rows
        [⟨"2024-01-01", some 1, none, none, none, none, none⟩,
         ⟨"2024-01-02", some 2, none, none, none, none, none⟩]
        "2024-01-02")).Nodup) :=
  ⟨by decide, store_preserves_unique_dates
    [⟨"2024-01-01", some 1, none, none, none, none, none⟩,
     ⟨"2024-01-02", some 2, none, none, none, none, none⟩]
    "2024-01-02" [(FieldKey.calories, 50)] (by decide)⟩

/-- C3 counterexample: The claim says no Record Store operation
propagates an exception; but `ensure_data_file_exists` re-raises
(`raise`, line 36) when creating the missing data file fails: with no
backing file and a failing create, the operation ends in an error. -/
theorem store_never_raises_counterexample :
    ensure_data_file_exists ⟨none, false, false, true⟩
      = Except.error PyErr.ioError ∧
    (ensure_data_file_exists ⟨none, false, false, true⟩).isOk = false := by
  exact ⟨rfl, rfl⟩

/-- C3 amended: Every Record Store operation **except**
`ensure_data_file_exists` swallows underlying I/O/parse failures, logs
them and returns a safe empty/false/absent value: under every file-system
state (failures included) `load_data`, `save_data`, `get_day_data`,
`update_day_data`, `get_date_range_data`, `delete_day_data`,
`get_summary_stats` and `backup_data` return normally, and each failure
degrades to the documented default (empty table, `false`, absent).
`ensure_data_file_exists` alone logs and re-raises a create failure. -/
theorem store_swallows_errors_except_ensure (fs : FS) (d s e : String)
    (us : Updates) (df : Table) :
    (load_data fs).isOk = true ∧
    (save_data fs df).isOk = true ∧
    (get_day_data fs d).isOk = true ∧
    (update_day_data fs d us).isOk = true ∧
    (get_date_range_data fs s e).isOk = true ∧
    (delete_day_data fs d).isOk = true ∧
    (get_summary_stats fs s e).isOk = true ∧
    (backup_data fs d).isOk = true ∧
    (fs.readFails = true → load_data fs = .ok []) ∧
    (fs.writeFails = true → save_data fs df = .ok (fs, false)) ∧
    (fs.readFails = true → get_day_data fs d = .ok none) ∧
    (fs.readFails = true → get_date_range_data fs s e = .ok []) ∧
    (fs.readFails = true → get_summary_stats fs s e = .ok none) := by
  obtain ⟨file, rF, wF, cF⟩ := fs
  refine ⟨?_, ?_, ?_, ?_, ?_, ?_, ?_, ?_, ?_, ?_, ?_, ?_, ?_⟩ <;>
    cases file <;> cases rF <;> cases wF <;>
      simp [load_data, save_data, get_day_data, update_day_data,
        get_date_range_data, delete_day_data, get_summary_stats,
        backup_data, readExcel, writeExcel, find_day, get_range_rows,
        summary_stats, Except.isOk, Except.toBool]

/-- Witness for C3 (amended): a state with both read and write failures
injected. -/
theorem store_swallows_errors_except_ensure_witness :
    (load_data ⟨some emptyRaw, true, true, false⟩).isOk = true ∧
    (save_data ⟨some emptyRaw, true, true, false⟩ []).isOk = true ∧
    (get_day_data ⟨some emptyRaw, true, true, false⟩ "2024-01-01").isOk
      = true ∧
    (update_day_data ⟨some emptyRaw, true, true, false⟩ "2024-01-01"
      []).isOk = true ∧
    (get_date_range_data ⟨some emptyRaw, true, true, false⟩ "2024-01-01"
      "2024-01-31").isOk = true ∧
    (delete_day_data ⟨some emptyRaw, true, true, false⟩ "2024-01-01").isOk
      = true ∧
    (get_summary_stats ⟨some emptyRaw, true, true, false⟩ "2024-01-01"
      "2024-01-31").isOk = true ∧
    (backup_data ⟨some emptyRaw, true, true, false⟩ "2024-01-01").isOk
      = true ∧
    ((⟨some emptyRaw, true, true, false⟩ : FS).readFails = true →
      load_data ⟨some emptyRaw, true, true, false⟩ = .ok []) ∧
    ((⟨some emptyRaw, true, true, false⟩ : FS).writeFails = true →
      save_data ⟨some emptyRaw, true, true, false⟩ []
        = .ok (⟨some emptyRaw, true, true, false⟩, false)) ∧
    ((⟨some emptyRaw, true, true, false⟩ : FS).readFails = true →
      get_day_data ⟨some emptyRaw, true, true, false⟩ "2024-01-01"
        = .ok none) ∧
    ((⟨some emptyRaw, true, true, false⟩ : FS).readFails = true →
      get_date_range_data ⟨some emptyRaw, true, true, false⟩ "2024-01-01"
        "2024-01-31" = .ok []) ∧
    ((⟨some emptyRaw, true, true, false⟩ : FS).readFails = true →
      get_summary_stats ⟨some emptyRaw, true, true, false⟩ "2024-01-01"
        "2024-01-31" = .ok none) :=
  store_swallows_errors_except_ensure ⟨some emptyRaw, true, true, false⟩
    "2024-01-01" "2024-01-01" "2024-01-31" [] []

theorem loadRow_rawOfRow (r : Row) : loadRow allCols (rawOfRow r) = r := rfl

/-- Serialize-then-parse is the identity on in-memory tables: the shape
`save_data` writes is exactly the shape `load_data` reads back. -/
theorem loadRaw_rawOfTable (df : Table) : loadRaw (rawOfTable df) = df := by
  induction df with
  | nil => rfl
  | cons r rs ih =>
    show loadRow allCols (rawOfRow r) :: loadRaw (rawOfTable rs) = r :: rs
    rw [loadRow_rawOfRow, ih]

/-- `load_data` always succeeds, with value `loadT`. -/
theorem load_data_eq (fs : FS) : load_data fs = .ok (loadT fs) := by
  obtain ⟨file, rF, wF, cF⟩ := fs
  cases file <;> cases rF <;> rfl

/-- `save_data` on a writable state stores the serialized table. -/
theorem save_data_ok (fs : FS) (t : Table) (hw : fs.writeFails = false) :
    save_data fs t = .ok ({ fs with file := some (rawOfTable t) }, true) := by
  unfold save_data writeExcel
  rw [hw]
  rfl

/-- Reloading after a save yields the very table that was saved (and the
empty table again if reads keep failing — in which case the saved table
was itself the empty one). -/
theorem loadT_after_save (fs : FS) :
    loadT { fs with file := some (rawOfTable (loadT fs)) } = loadT fs := by
  obtain ⟨file, rF, wF, cF⟩ := fs
  cases file <;> cases rF <;>
    simp [loadT, loadRaw_rawOfTable]

/-- C7: Round-trip: for every persisted table (any backing file
content, reads and writes succeeding), `save(load())` reports success and
leaves the observable table — what a subsequent `load` returns —
unchanged, row for row and value for value. -/
theorem save_load_unchanged (fs : FS) (hw : fs.writeFails = false) :
    ∃ fs', save_data fs (loadT fs) = .ok (fs', true) ∧
      loadT fs' = loadT fs := by
  exact ⟨_, save_data_ok fs (loadT fs) hw, loadT_after_save fs⟩

/-- Witness for C7: a backing file with a numeric date cell, a missing
`Weight` column and one data row. -/
theorem save_load_unchanged_witness :
    (FS.writeFails ⟨some ⟨⟨true, true, true, true, true, false, true⟩,
        [⟨Cell.num 45000, some 2000, none, none, none, some 150, none⟩]⟩,
      false, false, false⟩ = false) ∧
    ∃ fs', save_data ⟨some ⟨⟨true, true, true, true, true, false, true⟩,
        [⟨Cell.num 45000, some 2000, none, none, none, some 150, none⟩]⟩,
        false, false, false⟩
      (loadT ⟨some ⟨⟨true, true, true, true, true, false, true⟩,
        [⟨Cell.num 45000, some 2000, none, none, none, some 150, none⟩]⟩,
        false, false, false⟩) = .ok (fs', true) ∧
      loadT fs' = loadT ⟨some ⟨⟨true, true, true, true, true, false, true⟩,
        [⟨Cell.num 45000, some 2000, none, none, none, some 150, none⟩]⟩,
        false, false, false⟩ :=
  ⟨rfl, save_load_unchanged ⟨some ⟨⟨true, true, true, true, true, false, true⟩,
    [⟨Cell.num 45000, some 2000, none, none, none, some 150, none⟩]⟩,
    false, false, false⟩ rfl⟩

/-- C8: `delete_day_data` on a date with no row returns success and
leaves the table unchanged: the filter is the identity there, and the
rewritten file loads back to the same table. -/
theorem delete_absent_noop_success (fs : FS) (d : String)
    (hw : fs.writeFails = false) (habs : d ∉ datesOf (loadT fs)) :
    delete_rows (loadT fs) d = loadT fs ∧
    ∃ fs', delete_day_data fs d = .ok (fs', true) ∧
      loadT fs' = loadT fs := by
  have hfilter : delete_rows (loadT fs) d = loadT fs := by
    rw [delete_rows, List.filter_eq_self]
    intro r hrm
    simp only [ne_eq, decide_eq_true_eq]
    intro hrd
    exact habs (hrd ▸ List.mem_map_of_mem (fun x : Row => x.date) hrm)
  refine ⟨hfilter, _, ?_, loadT_after_save fs⟩
  rw [delete_day_data, load_data_eq]
  show save_data fs (delete_rows (loadT fs) d) = _
  rw [hfilter, save_data_ok fs _ hw]

/-- Witness for C8: a one-row store, deleting a date that is not there. -/
theorem delete_absent_noop_success_witness :
    (FS.writeFails ⟨some (rawOfTable
        [⟨"2024-01-01", some 2000, none, none, none, none, none⟩]),
      false, false, false⟩ = false) ∧
    ("2024-01-02" ∉ datesOf (loadT ⟨some (rawOfTable
        [⟨"2024-01-01", some 2000, none, none, none, none, none⟩]),
      false, false, false⟩)) ∧
    (delete_rows (loadT ⟨some (rawOfTable
          [⟨"2024-01-01", some 2000, none, none, none, none, none⟩]),
        false, false, false⟩) "2024-01-02"
      = loadT ⟨some (rawOfTable
          [⟨"2024-01-01", some 2000, none, none, none, none, none⟩]),
        false, false, false⟩ ∧
    ∃ fs', delete_day_data ⟨some (rawOfTable
          [⟨"2024-01-01", some 2000, none, none, none, none, none⟩]),
        false, false, false⟩ "2024-01-02" = .ok (fs', true) ∧
      loadT fs' = loadT ⟨some (rawOfTable
          [⟨"2024-01-01", some 2000, none, none, none, none, none⟩]),
        false, false, false⟩) :=
  ⟨rfl, by decide, delete_absent_noop_success ⟨some (rawOfTable
      [⟨"2024-01-01", some 2000, none, none, none, none, none⟩]),
    false, false, false⟩ "2024-01-02" rfl (by decide)⟩

/-- C4 counterexample: Both rows parse to January 2024 dates and both
fall in the requested range, but the result comes back sorted by
**string** ordering: `"2024-01-10"` sorts before `"2024-1-2"` although
January 2 precedes January 10 by calendar date value, so the output is
not ascending by calendar date. -/
theorem get_range_sort_not_calendar_counterexample :
    (get_range_rows
        [⟨"2024-01-10", some 100, none, none, none, none, none⟩,
         ⟨"2024-1-2", some 200, none, none, none, none, none⟩]
        "2024-01-01" "2024-01-31").map (·.date)
      = ["2024-01-10", "2024-1-2"] ∧
    parseDate "2024-01-10" = some ⟨2024, 1, 10⟩ ∧
    parseDate "2024-1-2" = some ⟨2024, 1, 2⟩ ∧
    Date.ltB ⟨2024, 1, 2⟩ ⟨2024, 1, 10⟩ = true :=
  ⟨by decide, by decide, by decide, by decide⟩

theorem strLe_total (a b : String) : strLe a b = true ∨ strLe b a = true := by
  unfold strLe
  rcases le_total a.data b.data with h | h <;> simp [h]

instance : IsTotal Row (fun a b => strLe a.date b.date = true) :=
  ⟨fun a b => strLe_total a.date b.date⟩

instance : IsTrans Row (fun a b => strLe a.date b.date = true) :=
  ⟨fun a b c hab hbc => by
    simp only [strLe, decide_eq_true_eq] at *
    exact le_trans hab hbc⟩

/-- When the endpoints and every stored date parse, the range query is
the calendar-filtered table sorted by the string order of the dates. -/
theorem get_range_eq_sort_filter (df : Table) (s e : String) (sd ed : Date)
    (hs : parseDate s = some sd) (he : parseDate e = some ed)
    (hp : ∀ r ∈ df, (parseDate r.date).isSome) :
    get_range_rows df s e
      = (df.filter (rowInRange sd ed)).insertionSort
          (fun a b : Row => strLe a.date b.date = true) := by
  have hall : df.all (fun r => (parseDate r.date).isSome) = true :=
    List.all_eq_true.mpr (fun r hr => by simpa using hp r hr)
  cases df with
  | nil => rfl
  | cons r rs =>
    unfold get_range_rows
    rw [hall, hs, he]
    rfl

/-- C4 amended: When the endpoints and all stored dates parse,
`get_date_range_data` returns exactly the rows whose **parsed calendar
date** falls in `[start, end]` inclusive (the in-range test does parse
both sides), but the ascending sort of the result is by **string
ordering** of the date text, not by calendar date value — the two agree
only when all date strings are uniformly zero-padded; the result is empty
when no row's date falls in the range. -/
theorem get_range_filter_calendar_sort_string (df : Table) (s e : String)
    (sd ed : Date) (hs : parseDate s = some sd) (he : parseDate e = some ed)
    (hp : ∀ r ∈ df, (parseDate r.date).isSome) :
    List.Perm (get_range_rows df s e) (df.filter (rowInRange sd ed)) ∧
    List.Sorted (fun a b : Row => strLe a.date b.date = true)
      (get_range_rows df s e) ∧
    (∀ r, r ∈ get_range_rows df s e ↔ r ∈ df ∧ rowInRange sd ed r = true) ∧
    ((∀ r ∈ df, rowInRange sd ed r = false) → get_range_rows df s e = []) := by
  have h := get_range_eq_sort_filter df s e sd ed hs he hp
  refine ⟨?_, ?_, ?_, ?_⟩
  · rw [h]; exact List.perm_insertionSort _ _
  · rw [h]; exact List.sorted_insertionSort _ _
  · intro r
    rw [h, List.mem_insertionSort, List.mem_filter]
  · intro hnone
    rw [h, List.filter_eq_nil_iff.mpr (fun r hr => by simp [hnone r hr])]
    rfl

/-- Witness for C4 (amended): a one-row table inside a January 2024
window. -/
theorem get_range_filter_calendar_sort_string_witness :
    parseDate "2024-01-01" = some ⟨2024, 1, 1⟩ ∧
    parseDate "2024-01-31" = some ⟨2024, 1, 31⟩ ∧
    (∀ r ∈ [(⟨"2024-01-02", some 100, none, none, none, none, none⟩ : Row)],
      (parseDate r.date).isSome) ∧
    (List.Perm (get_range_rows
        [⟨"2024-01-02", some 100, none, none, none, none, none⟩]
        "2024-01-01" "2024-01-31")
      (([(⟨"2024-01-02", some 100, none, none, none, none, none⟩ : Row)]).filter
          (rowInRange ⟨2024, 1, 1⟩ ⟨2024, 1, 31⟩)) ∧
    List.Sorted (fun a b : Row => strLe a.date b.date = true)
      (get_range_rows [⟨"2024-01-02", some 100, none, none, none, none, none⟩]
        "2024-01-01" "2024-01-31") ∧
    (∀ r, r ∈ get_range_rows
        [⟨"2024-01-02", some 100, none, none, none, none, none⟩]
        "2024-01-01" "2024-01-31"
      ↔ r ∈ [(⟨"2024-01-02", some 100, none, none, none, none, none⟩ : Row)]
          ∧ rowInRange ⟨2024, 1, 1⟩ ⟨2024, 1, 31⟩ r = true) ∧
    ((∀ r ∈ [(⟨"2024-01-02", some 100, none, none, none, none, none⟩ : Row)],
        rowInRange ⟨2024, 1, 1⟩ ⟨2024, 1, 31⟩ r = false) →
      get_range_rows [⟨"2024-01-02", some 100, none, none, none, none, none⟩]
        "2024-01-01" "2024-01-31" = [])) :=
  ⟨by decide, by decide, by decide,
    get_range_filter_calendar_sort_string
      [⟨"2024-01-02", some 100, none, none, none, none, none⟩]
      "2024-01-01" "2024-01-31" ⟨2024, 1, 1⟩ ⟨2024, 1, 31⟩
      (by decide) (by decide) (by decide)⟩

/-- Calendar comparison of two date strings (false unless both parse). -/
def dateLeB (a b : String) : Bool :=
  match parseDate a, parseDate b with
  | some da, some db => Date.leB da db
  | _, _ => false

theorem Date.leB_refl (d : Date) : Date.leB d d = true := by
  simp [Date.leB]

theorem dateLeB_refl (a : String) (h : (parseDate a).isSome) :
    dateLeB a a = true := by
  obtain ⟨d, hd⟩ := Option.isSome_iff_exists.mp h
  simp [dateLeB, hd, Date.leB_refl]

theorem pairwise_head_rel {α : Type} {R : α → α → Prop} {l : List α} {f : α}
    (hrefl : ∀ a ∈ l, R a a) (hp : l.Pairwise R) (hf : l.head? = some f) :
    ∀ r ∈ l, R f r := by
  cases l with
  | nil => cases hf
  | cons a t =>
    rw [List.head?_cons, Option.some.injEq] at hf
    subst hf
    intro r hr
    rcases List.mem_cons.mp hr with rfl | hrt
    · exact hrefl _ (List.mem_cons_self _ _)
    · exact (List.pairwise_cons.mp hp).1 r hrt

theorem pairwise_getLast_rel {α : Type} {R : α → α → Prop} {l : List α} {g : α}
    (hrefl : ∀ a ∈ l, R a a) (hp : l.Pairwise R) (hg : l.getLast? = some g) :
    ∀ r ∈ l, R r g := by
  induction l with
  | nil => cases hg
  | cons a t ih =>
    cases t with
    | nil =>
      rw [show ([a] : List α).getLast? = some a from rfl,
        Option.some.injEq] at hg
      subst hg
      intro r hr
      rcases List.mem_singleton.mp hr with rfl
      exact hrefl _ (List.mem_singleton_self _)
    | cons b t' =>
      rw [List.getLast?_cons_cons] at hg
      intro r hr
      have hgm : g ∈ b :: t' := List.mem_of_mem_getLast? hg
      rcases List.mem_cons.mp hr with rfl | hrt
      · exact (List.pairwise_cons.mp hp).1 g hgm
      · exact ih (fun x hx => hrefl x (List.mem_cons_of_mem _ hx))
          (List.pairwise_cons.mp hp).2 hg r hrt

/-- C5: Over any window whose rows come back in ascending calendar
date order, `get_summary_stats` reports `weight_change` as the last
recorded weight minus the first recorded weight among the window's rows
with a defined weight (the head and last of that date-ordered
subsequence, which bound every defined-weight row's date below and
above), and only when at least two such rows exist; with fewer than two
defined-weight rows `weight_change` is absent. -/
theorem summary_weight_change_last_minus_first (df : Table) (s e : String)
    (sd ed : Date) (hs : parseDate s = some sd) (he : parseDate e = some ed)
    (hp : ∀ r ∈ df, (parseDate r.date).isSome)
    (hsorted : (get_range_rows df s e).Pairwise
      (fun a b : Row => dateLeB a.date b.date = true)) :
    (((get_range_rows df s e).filter (fun r => r.weight.isSome)).length < 2 →
      ∀ st, summary_stats df s e = some st → st.weight_change = none) ∧
    (2 ≤ ((get_range_rows df s e).filter (fun r => r.weight.isSome)).length →
      ∃ st f l, summary_stats df s e = some st ∧
        ((get_range_rows df s e).filter (fun r => r.weight.isSome)).head?
          = some f ∧
        ((get_range_rows df s e).filter (fun r => r.weight.isSome)).getLast?
          = some l ∧
        st.weight_change = some (l.weight.getD 0 - f.weight.getD 0) ∧
        ∀ r ∈ (get_range_rows df s e).filter (fun r => r.weight.isSome),
          dateLeB f.date r.date = true ∧ dateLeB r.date l.date = true) := by
  have hmem : ∀ r ∈ get_range_rows df s e, r ∈ df := by
    intro r hr
    rw [get_range_eq_sort_filter df s e sd ed hs he hp,
      List.mem_insertionSort, List.mem_filter] at hr
    exact hr.1
  constructor
  · intro hlt st hst
    rw [summary_stats] at hst
    by_cases hw : (get_range_rows df s e).isEmpty
    · rw [if_pos hw] at hst; cases hst
    · rw [if_neg hw, Option.some.injEq] at hst
      subst hst
      rw [mkStats]
      simp only [if_neg (Nat.not_le.mpr hlt)]
  · intro hge
    have hwdne : (get_range_rows df s e).filter (fun r => r.weight.isSome)
        ≠ [] := by
      intro hnil
      rw [hnil] at hge
      exact absurd hge (by simp)
    have hwne : ¬ (get_range_rows df s e).isEmpty := by
      intro hemp
      rw [List.isEmpty_iff] at hemp
      rw [hemp] at hwdne
      exact hwdne rfl
    obtain ⟨f, t, hx⟩ := List.exists_cons_of_ne_nil hwdne
    have hf : ((get_range_rows df s e).filter
        (fun r => r.weight.isSome)).head? = some f := by
      rw [hx]; rfl
    obtain ⟨l, hl⟩ : ∃ l,
        ((get_range_rows df s e).filter (fun r => r.weight.isSome)).getLast?
          = some l :=
      ⟨_, List.getLast?_eq_getLast_of_ne_nil hwdne⟩
    have hreflwd : ∀ a ∈ (get_range_rows df s e).filter
        (fun r => r.weight.isSome), dateLeB a.date a.date = true := by
      intro a ha
      exact dateLeB_refl a.date (hp a (hmem a (List.mem_of_mem_filter ha)))
    have hpw := hsorted.filter (fun r => r.weight.isSome)
    refine ⟨mkStats (get_range_rows df s e), f, l, ?_, hf, hl, ?_, ?_⟩
    · rw [summary_stats, if_neg hwne]
    · rw [mkStats]
      simp only [if_pos hge, hf, hl]
    · intro r hr
      exact ⟨pairwise_head_rel hreflwd hpw hf r hr,
        pairwise_getLast_rel hreflwd hpw hl r hr⟩

/-- Witness for C5: the spec's example rows `{day1: weight=150, day5:
weight=145}` in a January 2024 window. -/
theorem summary_weight_change_last_minus_first_witness :
    parseDate "2024-01-01" = some ⟨2024, 1, 1⟩ ∧
    parseDate "2024-01-31" = some ⟨2024, 1, 31⟩ ∧
    (∀ r ∈ ([⟨"2024-01-01", none, none, none, none, some 150, none⟩,
      ⟨"2024-01-05", none, none, none, none, some 145, none⟩] : Table), (parseDate r.date).isSome) ∧
    (get_range_rows [⟨"2024-01-01", none, none, none, none, some 150, none⟩,
      ⟨"2024-01-05", none, none, none, none, some 145, none⟩] "2024-01-01" "2024-01-31").Pairwise
      (fun a b : Row => dateLeB a.date b.date = true) ∧
    ((((get_range_rows [⟨"2024-01-01", none, none, none, none, some 150, none⟩,
      ⟨"2024-01-05", none, none, none, none, some 145, none⟩] "2024-01-01" "2024-01-31").filter
        (fun r => r.weight.isSome)).length < 2 →
      ∀ st, summary_stats [⟨"2024-01-01", none, none, none, none, some 150, none⟩,
      ⟨"2024-01-05", none, none, none, none, some 145, none⟩] "2024-01-01" "2024-01-31" = some st →
        st.weight_change = none) ∧
    (2 ≤ ((get_range_rows [⟨"2024-01-01", none, none, none, none, some 150, none⟩,
      ⟨"2024-01-05", none, none, none, none, some 145, none⟩] "2024-01-01" "2024-01-31").filter
        (fun r => r.weight.isSome)).length →
      ∃ st f l, summary_stats [⟨"2024-01-01", none, none, none, none, some 150, none⟩,
      ⟨"2024-01-05", none, none, none, none, some 145, none⟩] "2024-01-01" "2024-01-31" = some st ∧
        ((get_range_rows [⟨"2024-01-01", none, none, none, none, some 150, none⟩,
      ⟨"2024-01-05", none, none, none, none, some 145, none⟩] "2024-01-01" "2024-01-31").filter
          (fun r => r.weight.isSome)).head? = some f ∧
        ((get_range_rows [⟨"2024-01-01", none, none, none, none, some 150, none⟩,
      ⟨"2024-01-05", none, none, none, none, some 145, none⟩] "2024-01-01" "2024-01-31").filter
          (fun r => r.weight.isSome)).getLast? = some l ∧
        st.weight_change = some (l.weight.getD 0 - f.weight.getD 0) ∧
        ∀ r ∈ (get_range_rows [⟨"2024-01-01", none, none, none, none, some 150, none⟩,
      ⟨"2024-01-05", none, none, none, none, some 145, none⟩] "2024-01-01" "2024-01-31").filter
            (fun r => r.weight.isSome),
          dateLeB f.date r.date = true ∧ dateLeB r.date l.date = true)) :=
  ⟨by decide, by decide, by decide, by decide,
    summary_weight_change_last_minus_first [⟨"2024-01-01", none, none, none, none, some 150, none⟩,
      ⟨"2024-01-05", none, none, none, none, some 145, none⟩]
      "2024-01-01" "2024-01-31" ⟨2024, 1, 1⟩ ⟨2024, 1, 31⟩
      (by decide) (by decide) (by decide) (by decide)⟩

/-- C10: `get_summary_stats` returns absent exactly when the window
holds zero rows: for parseable endpoints and stored dates, the result is
`none` iff no stored row's date falls in `[start, end]`, and whenever at
least one row falls in the window a stats object is returned — even if
every field of every row in the window is undefined. -/
theorem summary_absent_iff_window_empty (df : Table) (s e : String)
    (sd ed : Date) (hs : parseDate s = some sd) (he : parseDate e = some ed)
    (hp : ∀ r ∈ df, (parseDate r.date).isSome) :
    (summary_stats df s e = none ↔ df.filter (rowInRange sd ed) = []) ∧
    (df.filter (rowInRange sd ed) ≠ [] →
      ∃ st, summary_stats df s e = some st) := by
  have h := get_range_eq_sort_filter df s e sd ed hs he hp
  have hlen : (get_range_rows df s e).length
      = (df.filter (rowInRange sd ed)).length := by
    rw [h]; exact List.length_insertionSort _ _
  have hempty : (get_range_rows df s e).isEmpty = true
      ↔ df.filter (rowInRange sd ed) = [] := by
    rw [List.isEmpty_iff]
    constructor
    · intro hnil
      have hzero := congrArg List.length hnil
      rw [hlen] at hzero
      exact List.eq_nil_of_length_eq_zero (by simpa using hzero)
    · intro hnil
      rw [h, hnil]
      rfl
  constructor
  · rw [summary_stats]
    by_cases hw : (get_range_rows df s e).isEmpty
    · rw [if_pos hw]
      exact ⟨fun _ => hempty.mp hw, fun _ => rfl⟩
    · rw [if_neg hw]
      exact ⟨fun hcon => absurd hcon (Option.some_ne_none _),
        fun hnil => absurd (hempty.mpr hnil) hw⟩
  · intro hne
    rw [summary_stats, if_neg (fun hw => hne (hempty.mp hw))]
    exact ⟨_, rfl⟩

/-- Witness for C10: a window holding a single row all of whose fields
are undefined still yields a stats object, not absent. -/
theorem summary_absent_iff_window_empty_witness :
    parseDate "2024-01-01" = some ⟨2024, 1, 1⟩ ∧
    parseDate "2024-01-31" = some ⟨2024, 1, 31⟩ ∧
    (∀ r ∈ [(⟨"2024-01-03", none, none, none, none, none, none⟩ : Row)],
      (parseDate r.date).isSome) ∧
    ((summary_stats [⟨"2024-01-03", none, none, none, none, none, none⟩]
        "2024-01-01" "2024-01-31" = none
      ↔ ([(⟨"2024-01-03", none, none, none, none, none, none⟩ : Row)]).filter
          (rowInRange ⟨2024, 1, 1⟩ ⟨2024, 1, 31⟩) = []) ∧
    (([(⟨"2024-01-03", none, none, none, none, none, none⟩ : Row)]).filter
        (rowInRange ⟨2024, 1, 1⟩ ⟨2024, 1, 31⟩) ≠ [] →
      ∃ st, summary_stats [⟨"2024-01-03", none, none, none, none, none, none⟩]
        "2024-01-01" "2024-01-31" = some st)) :=
  ⟨by decide, by decide, by decide,
    summary_absent_iff_window_empty
      [⟨"2024-01-03", none, none, none, none, none, none⟩]
      "2024-01-01" "2024-01-31" ⟨2024, 1, 1⟩ ⟨2024, 1, 31⟩
      (by decide) (by decide) (by decide)⟩

/-- C9 counterexample: The `groupby` key is the **calendar** year
paired with the ISO week number, so key equality does not coincide with
"same ISO calendar week": `2019-01-01` (ISO week 2019-W01) and
`2019-12-31` (ISO week 2020-W01) lie in different ISO weeks yet land in
one group `(2019, 1)`, while `2024-12-30` and `2025-01-02` lie in the
same ISO week 2025-W01 yet are split into groups `(2024, 1)` and
`(2025, 1)`. -/
theorem weekly_group_key_not_iso_week_counterexample :
    (weeklySummary [⟨"2019-01-01", some 100, none, none, none, none, none⟩,
        ⟨"2019-12-31", some 300, none, none, none, none, none⟩]).map
      (List.map Prod.fst) = some [(2019, 1)] ∧
    isoPair ⟨2019, 1, 1⟩ = (2019, 1) ∧
    isoPair ⟨2019, 12, 31⟩ = (2020, 1) ∧
    (weeklySummary [⟨"2024-12-30", some 100, none, none, none, none, none⟩,
        ⟨"2025-01-02", some 300, none, none, none, none, none⟩]).map
      (List.map Prod.fst) = some [(2024, 1), (2025, 1)] ∧
    isoPair ⟨2024, 12, 30⟩ = (2025, 1) ∧
    isoPair ⟨2025, 1, 2⟩ = (2025, 1) :=
  ⟨by decide, by decide, by decide, by decide, by decide, by decide⟩

/-- C9 amended: `create_weekly_summary_chart` groups the window's
rows by the pair (calendar year, ISO week number) — not by the ISO
week-based year — computing per-group means of calories, weight, protein,
carbs and fat, and signals "no data" on an empty window; the group key
agrees with the genuine ISO calendar week exactly for dates whose ISO
week-year equals their calendar year, so rows of one ISO week can split
across two groups at a year boundary and rows of different ISO weeks can
share a group. -/
theorem weekly_summary_groups_by_year_and_week (df : Table) (d₁ d₂ : Date)
    (h₁ : isoWeekYear d₁ = d₁.year) (h₂ : isoWeekYear d₂ = d₂.year) :
    (weeklySummary [] = none) ∧
    (df ≠ [] → (∀ r ∈ df, (parseDate r.date).isSome) →
      ∃ gs, weeklySummary df = some gs ∧
        ∀ k w, (k, w) ∈ gs →
          w = weeklyAgg ((df.filterMap (fun r =>
              (parseDate r.date).map (fun dd => (dd, r)))).filter
            (fun p => weeklyKey p.1 = k))) ∧
    (weeklyKey d₁ = weeklyKey d₂ ↔ isoPair d₁ = isoPair d₂) := by
  refine ⟨rfl, ?_, ?_⟩
  · intro hne hp
    have hall : df.all (fun r => (parseDate r.date).isSome) = true :=
      List.all_eq_true.mpr (fun r hr => by simpa using hp r hr)
    have hnemp : ¬ df.isEmpty = true := fun hemp =>
      hne (List.isEmpty_iff.mp hemp)
    refine ⟨((((df.filterMap (fun r =>
        (parseDate r.date).map (fun dd => (dd, r)))).map
          (fun p => weeklyKey p.1)).dedup).insertionSort keyLe).map
        (fun k => (k, weeklyAgg ((df.filterMap (fun r =>
          (parseDate r.date).map (fun dd => (dd, r)))).filter
            (fun p => weeklyKey p.1 = k)))), ?_, ?_⟩
    · rw [weeklySummary, if_neg hnemp, if_pos hall]
    · intro k w hkw
      obtain ⟨key, hkey, heq⟩ := List.mem_map.mp hkw
      obtain ⟨hk, hw⟩ := Prod.mk.injEq .. ▸ heq
      exact hk ▸ hw.symm
  · unfold weeklyKey isoPair
    rw [h₁, h₂]

/-- Witness for C9 (amended): one October 2026 row; two mid-year dates
whose ISO week-year is their calendar year. -/
theorem weekly_summary_groups_by_year_and_week_witness :
    isoWeekYear ⟨2026, 10, 12⟩ = Date.year ⟨2026, 10, 12⟩ ∧
    isoWeekYear ⟨2026, 10, 5⟩ = Date.year ⟨2026, 10, 5⟩ ∧
    ((weeklySummary [] = none) ∧
    ([(⟨"2026-10-12", some 100, none, none, none, none, none⟩ : Row)] ≠ [] →
      (∀ r ∈ [(⟨"2026-10-12", some 100, none, none, none, none, none⟩ : Row)],
        (parseDate r.date).isSome) →
      ∃ gs, weeklySummary
          [⟨"2026-10-12", some 100, none, none, none, none, none⟩]
        = some gs ∧
        ∀ k w, (k, w) ∈ gs →
          w = weeklyAgg
            ((([(⟨"2026-10-12", some 100, none, none, none, none,
                none⟩ : Row)]).filterMap (fun r =>
              (parseDate r.date).map (fun dd => (dd, r)))).filter
            (fun p => weeklyKey p.1 = k))) ∧
    (weeklyKey ⟨2026, 10, 12⟩ = weeklyKey ⟨2026, 10, 5⟩
      ↔ isoPair ⟨2026, 10, 12⟩ = isoPair ⟨2026, 10, 5⟩)) :=
  ⟨by decide, by decide,
    weekly_summary_groups_by_year_and_week
      [⟨"2026-10-12", some 100, none, none, none, none, none⟩]
      ⟨2026, 10, 12⟩ ⟨2026, 10, 5⟩ (by decide) (by decide)⟩
